import Mathlib

/-!
Verification of the habitat worker-pool supervisor
(`src/components/net/src/supervisor.rs`) and the studio docker pull check
(`src/components/hab/src/command/studio.rs`), as a shallow embedding.

The supervisor is generic over a `Dispatcher` trait.  From the point of view
of the supervisor a dispatcher implementation is observable only through the
result of `init()` and through whether `start(tx)` sends the readiness
message on the liveness channel before the sender is dropped; that
observable behaviour is the `DispatcherBehavior` parameter below.

Machine state that the claims speak about is the `Supervisor` struct:
the shared `Arc<RwLock<Config>>` handle (modelled as the address of the
shared cell), and `workers : Vec<mpsc::Receiver<()>>`.  Each receiver is
tagged with the worker id passed to the `spawn_worker` call that created it
and with a per-supervisor serial number (`gen`), a modelling device that
identifies each `mpsc::sync_channel` allocation; `cap` records the channel
capacity requested at creation.  Rust panics (out-of-bounds `Vec::remove`
and `Vec` indexing, failing `unwrap`) are modelled with `Except Panic`.
-/

namespace Habitat

/-- The error type of `super::Result` in `supervisor.rs`.  The supervisor
functions are declared to return `super::Result<()>`; no branch of
`spawn_worker` ever constructs an error value, but the type admits one. -/
inductive SupError
  | mk
deriving DecidableEq, Repr

/-- A Rust panic: `Vec::remove` or `Vec` indexing out of bounds, or a failed
`unwrap` on a `Result`. -/
inductive Panic
  | indexOutOfBounds
  | unwrapFailed
deriving DecidableEq, Repr

/-- Supervisor-observable behaviour of one `Dispatcher` implementation `T`:
the result of `worker.init()`, and whether `worker.start(tx)` sends the
readiness message on the liveness channel before the sender is dropped. -/
structure DispatcherBehavior where
  init_result : Except SupError Unit
  start_signals_ready : Bool

/-- What the worker thread spawned by `spawn_worker` did: whether `start`
was reached, and whether the readiness message was sent on the channel
before the sender was dropped (a thread that ends drops `tx`). -/
structure ThreadRun where
  start_called : Bool
  ready_sent : Bool
deriving DecidableEq, Repr

/-- The closure run on the worker thread (supervisor.rs lines 83-86):
`try!(worker.init()); worker.start(tx)`.  If `init` fails the closure
returns at the `try!`, so `start` is never called and the sender is
dropped without any message having been sent. -/
def workerThreadBody (b : DispatcherBehavior) : ThreadRun :=
  match b.init_result with
  | Except.error _ => { start_called := false, ready_sent := false }
  | Except.ok () => { start_called := true, ready_sent := b.start_signals_ready }

/-- The receiving end of one liveness channel (`mpsc::Receiver<()>`),
tagged for the model with the worker id passed to the `spawn_worker` call
that created it, the allocation serial number and the channel capacity. -/
structure Receiver where
  worker_id : Nat
  gen : Nat
  cap : Nat
deriving DecidableEq, Repr

/-- The `Supervisor<T>` struct: the shared `Arc<RwLock<T::Config>>` handle
(modelled as the address of the shared cell), and
`workers : Vec<mpsc::Receiver<()>>`.  `nextGen` is the modelling device
that numbers successive `mpsc::sync_channel` allocations so that distinct
channels are distinguishable. -/
structure Supervisor where
  config : Nat
  workers : List Receiver
  nextGen : Nat
deriving DecidableEq, Repr

/-- `Arc::clone` on the shared configuration handle: copies the handle,
which still points at the same shared cell (the same address); the
configuration data is not copied. -/
def arcClone (h : Nat) : Nat := h

/-- `Supervisor::new(config)`: takes the shared configuration handle and
starts with an empty worker slot vector. -/
def Supervisor.new (config : Nat) : Supervisor :=
  { config := config, workers := [], nextGen := 0 }

/-- Everything produced by one call of `spawn_worker` (supervisor.rs lines
79-95): the liveness channel it allocated, the configuration handle given
to `T::new`, the worker thread run, and the state/return outcome (a panic,
or the updated supervisor together with the `super::Result<()>` value). -/
structure SpawnOutput where
  chan : Receiver
  dispatcher_cfg : Nat
  thread : ThreadRun
  result : Except Panic (Supervisor × Except SupError Unit)

/-- `Supervisor::spawn_worker(worker_id)` (supervisor.rs lines 79-95):
clone the config handle, allocate `mpsc::sync_channel(1)`, build the
dispatcher with `T::new(cfg)`, spawn the worker thread, then block on
`rx.recv()`.  If the readiness message arrives, `self.workers.push(rx)`;
otherwise `self.workers.remove(worker_id)`, which panics when
`worker_id >= self.workers.len()`.  Every non-panicking path returns
`Ok(())`. -/
def Supervisor.spawn_worker (self : Supervisor) (worker_id : Nat)
    (b : DispatcherBehavior) : SpawnOutput :=
  let cfg := arcClone self.config
  let rx : Receiver := { worker_id := worker_id, gen := self.nextGen, cap := 1 }
  let t := workerThreadBody b
  { chan := rx
    dispatcher_cfg := cfg
    thread := t
    result :=
      if t.ready_sent then
        Except.ok (⟨self.config, self.workers ++ [rx], self.nextGen + 1⟩,
          Except.ok ())
      else if worker_id < self.workers.length then
        Except.ok (⟨self.config, self.workers.eraseIdx worker_id,
          self.nextGen + 1⟩, Except.ok ())
      else
        Except.error Panic.indexOutOfBounds }

/-- Result of `init`: the worker ids for which `spawn_worker` was invoked,
in invocation order, together with the outcome (a panic, or the updated
supervisor and the returned `super::Result<()>`). -/
structure InitResult where
  spawned : List Nat
  outcome : Except Panic (Supervisor × Except SupError Unit)

/-- The loop of `Supervisor::init` (supervisor.rs lines 51-56) starting at
`worker_id` with `remaining` iterations left:
`for worker_id in 0..worker_count { try!(self.spawn_worker(worker_id)); }`.
A panic inside `spawn_worker` propagates; an `Err` return is propagated by
`try!`; otherwise the loop continues with the next id. -/
def Supervisor.initFrom (self : Supervisor) (worker_id remaining : Nat)
    (bs : Nat → DispatcherBehavior) : InitResult :=
  match remaining with
  | 0 => { spawned := [], outcome := Except.ok (self, Except.ok ()) }
  | r + 1 =>
    match (self.spawn_worker worker_id (bs worker_id)).result with
    | Except.error p => { spawned := [worker_id], outcome := Except.error p }
    | Except.ok (self1, Except.error e) =>
      { spawned := [worker_id], outcome := Except.ok (self1, Except.error e) }
    | Except.ok (self1, Except.ok ()) =>
      let rest := self1.initFrom (worker_id + 1) r bs
      { spawned := worker_id :: rest.spawned, outcome := rest.outcome }

/-- `Supervisor::init(worker_count)` (supervisor.rs lines 51-56). -/
def Supervisor.init (self : Supervisor) (worker_count : Nat)
    (bs : Nat → DispatcherBehavior) : InitResult :=
  self.initFrom 0 worker_count bs

/-- `Supervisor::run(worker_count)` (supervisor.rs lines 58-77): spawns the
detached monitor thread (modelled separately by `sweep`) and returns
`Ok(())` immediately. -/
def Supervisor.run (_self : Supervisor) (_worker_count : Nat) :
    Except SupError Unit :=
  Except.ok ()

/-- `Supervisor::start(worker_count)` (supervisor.rs lines 43-47):
`try!(self.init(worker_count)); self.run(worker_count)`.  A panic during
`init` unwinds through `start`. -/
def Supervisor.start (self : Supervisor) (worker_count : Nat)
    (bs : Nat → DispatcherBehavior) : Except Panic (Except SupError Unit) :=
  match (self.init worker_count bs).outcome with
  | Except.error p => Except.error p
  | Except.ok (_, Except.error e) => Except.ok (Except.error e)
  | Except.ok (self1, Except.ok ()) => Except.ok (self1.run worker_count)

/-- What `try_recv` reports for one receiver during a monitor sweep:
the sender was dropped, a message is pending, or the channel is empty. -/
inductive ChanPoll
  | disconnected
  | message
  | empty
deriving DecidableEq, Repr

/-- One monitor sweep of `Supervisor::run` (supervisor.rs lines 61-70)
starting at index `i` with `remaining` iterations left:
`for i in 0..worker_count { match self.workers[i].try_recv() { ... } }`.
Indexing `self.workers[i]` panics when `i` is out of bounds.  On
`Disconnected` the slot is respawned with `self.spawn_worker(i).unwrap()`;
an `Err` from `spawn_worker` would fail the `unwrap`.  An unexpected
message is only logged; `Empty` just moves on. -/
def Supervisor.sweepFrom (self : Supervisor) (i remaining : Nat)
    (poll : Receiver → ChanPoll) (bs : Nat → DispatcherBehavior) :
    Except Panic Supervisor :=
  match remaining with
  | 0 => Except.ok self
  | r + 1 =>
    if h : i < self.workers.length then
      match poll (self.workers.get ⟨i, h⟩) with
      | ChanPoll.disconnected =>
        match (self.spawn_worker i (bs i)).result with
        | Except.error p => Except.error p
        | Except.ok (_, Except.error _) => Except.error Panic.unwrapFailed
        | Except.ok (self1, Except.ok ()) => self1.sweepFrom (i + 1) r poll bs
      | ChanPoll.message => self.sweepFrom (i + 1) r poll bs
      | ChanPoll.empty => self.sweepFrom (i + 1) r poll bs
    else
      Except.error Panic.indexOutOfBounds

/-- One full monitor sweep over `0..worker_count`. -/
def Supervisor.sweep (self : Supervisor) (worker_count : Nat)
    (poll : Receiver → ChanPoll) (bs : Nat → DispatcherBehavior) :
    Except Panic Supervisor :=
  self.sweepFrom 0 worker_count poll bs

/-- The data behind the shared `Arc<RwLock<_>>` cells: a store mapping cell
addresses to configuration values.  `Arc::clone` copies an address, never
the stored value. -/
def ConfigStore (α : Type) : Type := Nat → α

/-- Read the configuration value a handle points at. -/
def readConfig {α : Type} (s : ConfigStore α) (h : Nat) : α := s h

/-- Mutate the configuration cell a handle points at (an update performed
through the shared `RwLock`). -/
def writeConfig {α : Type} [DecidableEq Nat] (s : ConfigStore α) (h : Nat)
    (v : α) : ConfigStore α :=
  fun a => if a = h then v else s a

end Habitat

namespace Studio

/-- `DOCKER_IMAGE` (studio.rs line 120). -/
def DOCKER_IMAGE : String := "habitat-docker-registry.bintray.io/studio"

/-- `version[0]` where `version: Vec<&str> = VERSION.split("/").collect()`
(studio.rs line 210): the version string up to the first slash (the whole
string when it has no slash). -/
def versionTag (version : String) : String :=
  String.mk (version.toList.takeWhile (fun c => c != '/'))

/-- `image_identifier()` (studio.rs lines 209-212): the value of the
`HAB_DOCKER_STUDIO_IMAGE` environment variable if set, otherwise
`format!("{}:{}", DOCKER_IMAGE, version[0])`. -/
def image_identifier (envOverride : Option String) (version : String) :
    String :=
  envOverride.getD (DOCKER_IMAGE ++ ":" ++ versionTag version)

/-- Rust `str::contains(pattern)` for string patterns: some suffix of the
text starts with the pattern. -/
def strContains (s pat : String) : Bool :=
  s.toList.tails.any (fun t => pat.toList.isPrefixOf t)

/-- The error values constructed from a failed docker pull
(studio.rs lines 150-156). -/
inductive PullError
  | dockerImageNotFound (ident : String)
  | dockerDaemonDown
  | dockerNetworkDown (ident : String)
deriving DecidableEq, Repr

/-- Observable outcome of running `docker pull <identifier>`: the process
exit status and its captured stderr text. -/
structure PullOutput where
  success : Bool
  stderr : String

/-- The stderr classification of a failed pull (studio.rs lines 150-156):
stderr containing both `"image"` and `"not found"` reports
`DockerImageNotFound`; else stderr containing
`"Cannot connect to the Docker daemon"` reports `DockerDaemonDown`; else
`DockerNetworkDown`. -/
def classify_pull_failure (ident stderr : String) : PullError :=
  if strContains stderr "image" && strContains stderr "not found" then
    PullError.dockerImageNotFound ident
  else if strContains stderr "Cannot connect to the Docker daemon" then
    PullError.dockerDaemonDown
  else
    PullError.dockerNetworkDown ident

/-- The image-availability check of `inner::start` (studio.rs lines
131-157): run `docker pull` on `image_identifier()`; on success proceed,
on failure classify the stderr text and return the corresponding error. -/
def pull_check (pull : String → PullOutput) (envOverride : Option String)
    (version : String) : Except PullError Unit :=
  let ident := image_identifier envOverride version
  let out := pull ident
  if out.success then Except.ok ()
  else Except.error (classify_pull_failure ident out.stderr)

end Studio

namespace Habitat

/-- The success branch of `spawn_worker`: the readiness message arrived, so
the new receiver is pushed at the end of the slot vector. -/
theorem spawn_worker_ready (self : Supervisor) (i : Nat) (b : DispatcherBehavior)
    (h : (workerThreadBody b).ready_sent = true) :
    (self.spawn_worker i b).result =
      Except.ok (⟨self.config, self.workers ++ [⟨i, self.nextGen, 1⟩], self.nextGen + 1⟩,
        Except.ok ()) := by
  simp [Supervisor.spawn_worker, h]

/-- The failure branch of `spawn_worker` with `worker_id` in bounds:
`Vec::remove(worker_id)` removes an existing slot and `Ok(())` is
returned. -/
theorem spawn_worker_failed_inbounds (self : Supervisor) (i : Nat)
    (b : DispatcherBehavior) (h : (workerThreadBody b).ready_sent = false)
    (hlt : i < self.workers.length) :
    (self.spawn_worker i b).result =
      Except.ok (⟨self.config, self.workers.eraseIdx i, self.nextGen + 1⟩,
        Except.ok ()) := by
  simp [Supervisor.spawn_worker, h, hlt]

/-- The failure branch of `spawn_worker` with `worker_id` out of bounds:
`Vec::remove(worker_id)` panics. -/
theorem spawn_worker_failed_oob (self : Supervisor) (i : Nat)
    (b : DispatcherBehavior) (h : (workerThreadBody b).ready_sent = false)
    (hge : self.workers.length ≤ i) :
    (self.spawn_worker i b).result = Except.error Panic.indexOutOfBounds := by
  simp [Supervisor.spawn_worker, h, Nat.not_lt.mpr hge]

/-- Shifting a mapped range by one. -/
theorem range_shift (i r : Nat) :
    (List.range (r + 1)).map (fun j => i + j)
      = i :: (List.range r).map (fun j => i + 1 + j) := by
  rw [List.range_succ_eq_map, List.map_cons, List.map_map]
  refine congrArg₂ List.cons (by omega) (List.map_congr_left fun a _ => ?_)
  simp [Function.comp]
  omega

end Habitat

namespace Habitat

/-- Shape of a successful `init` loop run: starting with `i` slots at index
`i`, a non-panicking completion means every attempted worker signalled
readiness, the returned value is `Ok(())`, and the slot vector gained the
receivers of workers `i, i+1, ...` in order. -/
theorem initFrom_ok_shape (bs : Nat → DispatcherBehavior) (r : Nat) :
    ∀ (self : Supervisor) (i : Nat) (st : Supervisor) (res : Except SupError Unit),
      self.workers.length = i →
      (self.initFrom i r bs).outcome = Except.ok (st, res) →
      res = Except.ok () ∧
      st.workers.map Receiver.worker_id
        = self.workers.map Receiver.worker_id ++ (List.range r).map (fun j => i + j) ∧
      (∀ j, j < r → (workerThreadBody (bs (i + j))).ready_sent = true) := by
  induction r with
  | zero =>
    intro self i st res _ h
    simp [Supervisor.initFrom] at h
    obtain ⟨h1, h2⟩ := h
    subst h1; subst h2
    exact ⟨rfl, by simp, by omega⟩
  | succ r ih =>
    intro self i st res hlen h
    by_cases hready : (workerThreadBody (bs i)).ready_sent = true
    · have hsw := spawn_worker_ready self i (bs i) hready
      simp [Supervisor.initFrom, hsw] at h
      obtain ⟨hres, hmap, hrall⟩ :=
        ih ⟨self.config, self.workers ++ [⟨i, self.nextGen, 1⟩], self.nextGen + 1⟩
          (i + 1) st res (by simp [hlen]) h
      refine ⟨hres, ?_, ?_⟩
      · rw [hmap, range_shift]
        simp [List.append_assoc]
      · intro j hj
        cases j with
        | zero => simpa using hready
        | succ j' =>
          have heq : i + (j' + 1) = i + 1 + j' := by omega
          rw [heq]
          exact hrall j' (by omega)
    · have hf : (workerThreadBody (bs i)).ready_sent = false := by
        simpa using hready
      have hsw := spawn_worker_failed_oob self i (bs i) hf (le_of_eq hlen)
      simp [Supervisor.initFrom, hsw] at h

end Habitat

namespace Habitat

/-- The `init` loop run into its first failure: with `i` slots at index `i`
and the first non-ready worker at id `k`, the loop spawns exactly ids
`i..k` and then panics in the failure branch of `spawn_worker`
(out-of-bounds `Vec::remove`). -/
theorem initFrom_first_failure (bs : Nat → DispatcherBehavior) (r : Nat) :
    ∀ (self : Supervisor) (i k : Nat),
      self.workers.length = i → i ≤ k → k < i + r →
      (∀ j, i ≤ j → j < k → (workerThreadBody (bs j)).ready_sent = true) →
      (workerThreadBody (bs k)).ready_sent = false →
      (self.initFrom i r bs).spawned
        = (List.range (k + 1 - i)).map (fun j => i + j) ∧
      (self.initFrom i r bs).outcome = Except.error Panic.indexOutOfBounds := by
  induction r with
  | zero =>
    intro self i k _ hik hkr _ _
    omega
  | succ r ih =>
    intro self i k hlen hik hkr hready hfail
    rcases Nat.eq_or_lt_of_le hik with heq | hlt
    · subst heq
      have hsw := spawn_worker_failed_oob self i (bs i) hfail (le_of_eq hlen)
      have h1 : i + 1 - i = 1 := by omega
      rw [h1]
      simp only [Supervisor.initFrom, hsw]
      rw [show List.range 1 = [0] from rfl]
      simp
    · have hri : (workerThreadBody (bs i)).ready_sent = true :=
        hready i (le_refl i) hlt
      have hsw := spawn_worker_ready self i (bs i) hri
      obtain ⟨hsp, hout⟩ :=
        ih ⟨self.config, self.workers ++ [⟨i, self.nextGen, 1⟩], self.nextGen + 1⟩
          (i + 1) k (by simp [hlen]) (by omega) (by omega)
          (fun j hj1 hj2 => hready j (by omega) hj2) hfail
      constructor
      · simp only [Supervisor.initFrom, hsw]
        have h1 : k + 1 - i = (k - i) + 1 := by omega
        have h2 : k + 1 - (i + 1) = k - i := by omega
        rw [h1, range_shift, ← h2, ← hsp]
      · simp only [Supervisor.initFrom, hsw]
        exact hout

end Habitat

namespace Habitat

/-- A monitor sweep over receivers none of which reports `Disconnected`
(each is alive or has sent a stray message) changes nothing: the `Ok(msg)`
arm only logs and the `Empty` arm moves on. -/
theorem sweepFrom_no_disconnect (poll : Receiver → ChanPoll)
    (bs : Nat → DispatcherBehavior) (r : Nat) :
    ∀ (self : Supervisor) (i : Nat),
      i + r ≤ self.workers.length →
      (∀ rx, rx ∈ self.workers → poll rx ≠ ChanPoll.disconnected) →
      self.sweepFrom i r poll bs = Except.ok self := by
  induction r with
  | zero => intro self i _ _; rfl
  | succ r ih =>
    intro self i hle hnd
    have hlt : i < self.workers.length := by omega
    have hpoll := hnd _ (List.get_mem self.workers i hlt)
    simp only [Supervisor.sweepFrom, hlt, dif_pos]
    cases hcase : poll (self.workers.get ⟨i, hlt⟩) with
    | disconnected => exact absurd hcase hpoll
    | message => exact ih self (i + 1) (by omega) hnd
    | empty => exact ih self (i + 1) (by omega) hnd

end Habitat

namespace Habitat

/-- Claim C1 (code bug shown on the code): with worker_count = 1 and a
worker whose `init` fails (so it never signals readiness),
`Supervisor::start` does not return the worker error to its caller - the
failure branch of `spawn_worker` calls `self.workers.remove(0)` on an
empty slot vector, which panics with an index out of bounds, and no branch
of `spawn_worker` ever returns `Err`. -/
theorem start_single_failed_worker_panics :
    (Supervisor.new 0).start 1 (fun _ => ⟨Except.error SupError.mk, false⟩)
      = Except.error Panic.indexOutOfBounds ∧
    (∀ res : Except SupError Unit,
      (Supervisor.new 0).start 1 (fun _ => ⟨Except.error SupError.mk, false⟩)
        ≠ Except.ok res) :=
  ⟨rfl, fun _ h => nomatch h⟩

/-- Claim C2 (code bug shown on the code): a ready pool of one worker whose
channel has disconnected.  The next sweep calls `spawn_worker(0)`, whose
success path does `self.workers.push(rx)`: the new receiver (gen 1) lands
at index 1 while the dead receiver (gen 0) stays at index 0, and the slot
count grows from 1 to 2 instead of staying 1. -/
theorem monitor_respawn_appends_keeps_dead_receiver :
    ((⟨0, [⟨0, 0, 1⟩], 1⟩ : Supervisor).sweep 1
        (fun rx => if rx.gen = 0 then ChanPoll.disconnected else ChanPoll.empty)
        (fun _ => ⟨Except.ok (), true⟩))
      = Except.ok ⟨0, [⟨0, 0, 1⟩, ⟨0, 1, 1⟩], 2⟩ ∧
    (⟨0, [⟨0, 0, 1⟩, ⟨0, 1, 1⟩], 2⟩ : Supervisor).workers.length = 2 :=
  ⟨rfl, rfl⟩

/-- Claim C3: in the startup-failure branch of `spawn_worker` the removal
is index-based at `worker_id` although the failed worker receiver was
never inserted: when a slot exists at that index the branch removes that
unrelated slot (the result is `eraseIdx worker_id`, a sublist of the old
vector, so nothing was inserted) and still returns `Ok(())`; when
`worker_id` equals the vector length - the initial bring-up case - the
removal panics out of bounds. -/
theorem spawn_failure_removal_misindexed (self : Supervisor) (worker_id : Nat)
    (b : DispatcherBehavior) (hfail : (workerThreadBody b).ready_sent = false) :
    (worker_id < self.workers.length →
      (self.spawn_worker worker_id b).result =
        Except.ok (⟨self.config, self.workers.eraseIdx worker_id,
          self.nextGen + 1⟩, Except.ok ()) ∧
      (self.workers.eraseIdx worker_id).Sublist self.workers ∧
      (self.workers.eraseIdx worker_id).length + 1 = self.workers.length) ∧
    (worker_id = self.workers.length →
      (self.spawn_worker worker_id b).result = Except.error Panic.indexOutOfBounds) := by
  constructor
  · intro hlt
    refine ⟨spawn_worker_failed_inbounds self worker_id b hfail hlt,
      List.eraseIdx_sublist self.workers worker_id, ?_⟩
    rw [List.length_eraseIdx_of_lt hlt]
    omega
  · intro heq
    exact spawn_worker_failed_oob self worker_id b hfail (le_of_eq heq.symm)

/-- Witness for C3: a pool with the ready slots of workers 0 and 1; a
respawn of worker 0 fails, and the branch removes slot 0 - the receiver of
the healthy worker 0 spawned earlier - returning `Ok(())`. -/
theorem spawn_failure_removal_misindexed_witness :
    ((⟨0, [⟨0, 0, 1⟩, ⟨1, 1, 1⟩], 2⟩ : Supervisor).spawn_worker 0
        ⟨Except.error SupError.mk, false⟩).result
      = Except.ok (⟨0, [⟨1, 1, 1⟩], 3⟩, Except.ok ()) :=
  ((spawn_failure_removal_misindexed ⟨0, [⟨0, 0, 1⟩, ⟨1, 1, 1⟩], 2⟩ 0
      ⟨Except.error SupError.mk, false⟩ rfl).1 (by decide)).1

end Habitat

namespace Habitat

/-- Claim C4: a successful `init(N)` run from a fresh supervisor produces
exactly N slots whose receivers belong to workers 0..N-1 in insertion
order, every one of the N workers signalled readiness (the caller blocked
on each `recv` in turn), the returned value is `Ok(())`, and `start`
then returns control to its caller with `Ok(())` after handing off
monitoring. -/
theorem init_ok_pool_has_all_ids (cfg N : Nat) (bs : Nat → DispatcherBehavior)
    (st : Supervisor) (res : Except SupError Unit)
    (h : ((Supervisor.new cfg).init N bs).outcome = Except.ok (st, res)) :
    res = Except.ok () ∧
    st.workers.map Receiver.worker_id = List.range N ∧
    st.workers.length = N ∧
    (∀ i, i < N → (workerThreadBody (bs i)).ready_sent = true) ∧
    (Supervisor.new cfg).start N bs = Except.ok (Except.ok ()) := by
  obtain ⟨hres, hmap, hready⟩ :=
    initFrom_ok_shape bs N (Supervisor.new cfg) 0 st res rfl h
  have hmap2 : st.workers.map Receiver.worker_id = List.range N := by
    rw [hmap]
    simp [Supervisor.new]
  refine ⟨hres, hmap2, ?_, fun i hi => by simpa using hready i hi, ?_⟩
  · have := congrArg List.length hmap2
    simpa using this
  · subst hres
    simp [Supervisor.start, h, Supervisor.run]

/-- Witness for C4: two workers that both become ready; `init` completes,
the pool holds the receivers of workers 0 and 1 in order, and `start`
returns `Ok`. -/
theorem init_ok_pool_has_all_ids_witness :
    (⟨0, [⟨0, 0, 1⟩, ⟨1, 1, 1⟩], 2⟩ : Supervisor).workers.map Receiver.worker_id
        = List.range 2 ∧
    (Supervisor.new 0).start 2 (fun _ => ⟨Except.ok (), true⟩)
        = Except.ok (Except.ok ()) :=
  ⟨(init_ok_pool_has_all_ids 0 2 (fun _ => ⟨Except.ok (), true⟩)
      ⟨0, [⟨0, 0, 1⟩, ⟨1, 1, 1⟩], 2⟩ (Except.ok ()) rfl).2.1,
   (init_ok_pool_has_all_ids 0 2 (fun _ => ⟨Except.ok (), true⟩)
      ⟨0, [⟨0, 0, 1⟩, ⟨1, 1, 1⟩], 2⟩ (Except.ok ()) rfl).2.2.2.2⟩

/-- Claim C5: `init` spawns sequentially in increasing id order and, when
the first failing worker is id k, spawns exactly ids 0..k - no worker with
an id above k is ever spawned (the failure aborts the loop, here by the
panic in the failure branch of `spawn_worker`). -/
theorem init_first_failure_aborts (cfg N k : Nat) (bs : Nat → DispatcherBehavior)
    (hk : k < N)
    (hready : ∀ j, j < k → (workerThreadBody (bs j)).ready_sent = true)
    (hfail : (workerThreadBody (bs k)).ready_sent = false) :
    ((Supervisor.new cfg).init N bs).spawned = List.range (k + 1) ∧
    (∀ w, w ∈ ((Supervisor.new cfg).init N bs).spawned → w ≤ k) := by
  obtain ⟨hsp, _⟩ :=
    initFrom_first_failure bs N (Supervisor.new cfg) 0 k rfl (Nat.zero_le k)
      (by omega) (fun j _ hj => hready j hj) hfail
  have hsp2 : ((Supervisor.new cfg).init N bs).spawned = List.range (k + 1) := by
    rw [Supervisor.init, hsp]
    simp
  refine ⟨hsp2, fun w hw => ?_⟩
  rw [hsp2] at hw
  have := List.mem_range.mp hw
  omega

/-- Witness for C5: one worker that fails at once; only id 0 is spawned. -/
theorem init_first_failure_aborts_witness :
    ((Supervisor.new 0).init 1 (fun _ => ⟨Except.error SupError.mk, false⟩)).spawned
      = List.range 1 :=
  (init_first_failure_aborts 0 1 0 (fun _ => ⟨Except.error SupError.mk, false⟩)
    (by omega) (fun j hj => absurd hj (by omega)) rfl).1

end Habitat

namespace Habitat

/-- Counterexample to claim C6 as stated: a pool of one worker whose
channel disconnected; the respawned worker fails before signalling
readiness (`ready_sent = false`), yet the sweep runs to normal completion
and returns, leaving an empty pool - the monitor loop goes on to sleep and
sweep again; nothing terminates. -/
theorem failed_respawn_sweep_completes_normally :
    (workerThreadBody ⟨Except.error SupError.mk, false⟩).ready_sent = false ∧
    ((⟨0, [⟨0, 0, 1⟩], 1⟩ : Supervisor).sweep 1 (fun _ => ChanPoll.disconnected)
        (fun _ => ⟨Except.error SupError.mk, false⟩))
      = Except.ok ⟨0, [], 2⟩ :=
  ⟨rfl, rfl⟩

/-- Claim C6 as amended: when a respawn attempt inside the monitor loop
fails (the respawned worker never signals readiness), the failure is not
fatal - `spawn_worker` removes the receiver at that index and returns
`Ok(())`, the `unwrap` passes, and the sweep continues at the next index
with the slot vector one element shorter. -/
theorem failed_respawn_sweep_continues (self : Supervisor) (i r : Nat)
    (poll : Receiver → ChanPoll) (bs : Nat → DispatcherBehavior)
    (h : i < self.workers.length)
    (hd : poll (self.workers.get ⟨i, h⟩) = ChanPoll.disconnected)
    (hf : (workerThreadBody (bs i)).ready_sent = false) :
    self.sweepFrom i (r + 1) poll bs
      = Supervisor.sweepFrom ⟨self.config, self.workers.eraseIdx i,
          self.nextGen + 1⟩ (i + 1) r poll bs ∧
    (self.workers.eraseIdx i).length + 1 = self.workers.length := by
  have hsw := spawn_worker_failed_inbounds self i (bs i) hf h
  constructor
  · simp only [Supervisor.sweepFrom, h, dif_pos, hd, hsw]
  · rw [List.length_eraseIdx_of_lt h]
    omega

/-- Witness for the amended C6: one disconnected slot, failed respawn; the
sweep continues on the shrunken (empty) pool. -/
theorem failed_respawn_sweep_continues_witness :
    ((⟨0, [⟨0, 0, 1⟩], 1⟩ : Supervisor).sweepFrom 0 1 (fun _ => ChanPoll.disconnected)
        (fun _ => ⟨Except.error SupError.mk, false⟩))
      = Supervisor.sweepFrom ⟨0, [], 2⟩ 1 0 (fun _ => ChanPoll.disconnected)
          (fun _ => ⟨Except.error SupError.mk, false⟩) ∧
    (([⟨0, 0, 1⟩] : List Receiver).eraseIdx 0).length + 1 = 1 :=
  failed_respawn_sweep_continues ⟨0, [⟨0, 0, 1⟩], 1⟩ 0 0
    (fun _ => ChanPoll.disconnected) (fun _ => ⟨Except.error SupError.mk, false⟩)
    (by decide) rfl rfl

/-- Claim C7: a message received on a liveness channel after readiness is
only logged.  During a sweep in which no receiver reports `Disconnected`
(each is alive or has sent a stray message), the supervisor state is
returned unchanged - same slot vector, and the unchanged `nextGen` shows
no `sync_channel` allocation, hence no respawn, happened - and `run`
still returns `Ok(())`. -/
theorem post_ready_message_only_logged (self : Supervisor) (N : Nat)
    (poll : Receiver → ChanPoll) (bs : Nat → DispatcherBehavior)
    (hN : N ≤ self.workers.length)
    (hnd : ∀ rx, rx ∈ self.workers → poll rx ≠ ChanPoll.disconnected) :
    self.sweep N poll bs = Except.ok self ∧ self.run N = Except.ok () :=
  ⟨sweepFrom_no_disconnect poll bs N self 0 (by omega) hnd, rfl⟩

/-- Witness for C7: a single worker whose channel holds a stray
post-readiness message; the sweep leaves the pool untouched. -/
theorem post_ready_message_only_logged_witness :
    (⟨0, [⟨0, 0, 1⟩], 1⟩ : Supervisor).sweep 1 (fun _ => ChanPoll.message)
        (fun _ => ⟨Except.ok (), true⟩)
      = Except.ok ⟨0, [⟨0, 0, 1⟩], 1⟩ :=
  (post_ready_message_only_logged ⟨0, [⟨0, 0, 1⟩], 1⟩ 1 (fun _ => ChanPoll.message)
    (fun _ => ⟨Except.ok (), true⟩) (by decide) (fun _ _ h => ChanPoll.noConfusion h)).1

/-- Claim C8: `spawn_worker` allocates a fresh liveness channel of capacity
exactly 1 (its serial number is the next unused one), hands `T::new` the
clone of the shared configuration handle, and the spawned thread runs
`init` first: `start` is reached exactly when `init` returned Ok, and the
readiness signal is sent exactly when `init` succeeded and `start` sent
it; on `init` failure the thread ends with nothing sent, dropping the
sender. -/
theorem spawn_worker_channel_dispatcher_thread (self : Supervisor)
    (worker_id : Nat) (b : DispatcherBehavior) :
    (self.spawn_worker worker_id b).chan.cap = 1 ∧
    (self.spawn_worker worker_id b).chan.gen = self.nextGen ∧
    (self.spawn_worker worker_id b).dispatcher_cfg = arcClone self.config ∧
    (self.spawn_worker worker_id b).thread = workerThreadBody b ∧
    (workerThreadBody b).start_called = b.init_result.isOk ∧
    (workerThreadBody b).ready_sent = (b.init_result.isOk && b.start_signals_ready) := by
  refine ⟨rfl, rfl, rfl, rfl, ?_, ?_⟩ <;>
    rcases b with ⟨ir, ssr⟩ <;> cases ir <;> rfl

/-- Claim C9: the dispatcher built by any (re)spawn holds the very same
shared configuration handle as the supervisor (`Arc::clone` copies the
address, not the data), so a mutation written through the shared handle
before a respawn is what the freshly constructed worker reads. -/
theorem respawn_uses_shared_config_reference {α : Type} (store : ConfigStore α)
    (self : Supervisor) (worker_id : Nat) (b : DispatcherBehavior) (v : α) :
    (self.spawn_worker worker_id b).dispatcher_cfg = self.config ∧
    readConfig (writeConfig store self.config v)
        ((self.spawn_worker worker_id b).dispatcher_cfg) = v := by
  refine ⟨rfl, ?_⟩
  simp [readConfig, writeConfig, Supervisor.spawn_worker, arcClone]

end Habitat

namespace Studio

/-- Claim C10: when no image override is configured, the pull is invoked
with the identifier `<registry-image>:<version-tag>`; a failed pull is
reported as the classification of its stderr, and the classifier yields
three pairwise distinct categories: stderr containing both "image" and
"not found" is an image-not-found, stderr naming the unreachable daemon is
a daemon-down, and anything else falls back to network-down. -/
theorem pull_check_composes_and_classifies (pull : String → PullOutput)
    (version : String)
    (hfail : (pull (image_identifier none version)).success = false) :
    image_identifier none version = DOCKER_IMAGE ++ ":" ++ versionTag version ∧
    pull_check pull none version
      = Except.error (classify_pull_failure (image_identifier none version)
          (pull (image_identifier none version)).stderr) ∧
    classify_pull_failure (image_identifier none version)
        "Error: image library/studio:0.5.0 not found"
      = PullError.dockerImageNotFound (image_identifier none version) ∧
    classify_pull_failure (image_identifier none version)
        "Cannot connect to the Docker daemon. Is the docker daemon running on this host?"
      = PullError.dockerDaemonDown ∧
    classify_pull_failure (image_identifier none version) "network timed out"
      = PullError.dockerNetworkDown (image_identifier none version) ∧
    PullError.dockerImageNotFound (image_identifier none version)
      ≠ PullError.dockerDaemonDown ∧
    PullError.dockerDaemonDown
      ≠ PullError.dockerNetworkDown (image_identifier none version) ∧
    PullError.dockerImageNotFound (image_identifier none version)
      ≠ PullError.dockerNetworkDown (image_identifier none version) := by
  refine ⟨rfl, ?_, rfl, rfl, rfl, fun h => PullError.noConfusion h,
    fun h => PullError.noConfusion h, fun h => PullError.noConfusion h⟩
  simp [pull_check, hfail]

/-- Witness for C10: a pull that fails with a generic network error on the
default identifier for version "0.9.0/20160810". -/
theorem pull_check_composes_and_classifies_witness :
    image_identifier none "0.9.0/20160810"
      = DOCKER_IMAGE ++ ":" ++ versionTag "0.9.0/20160810" ∧
    pull_check (fun _ => ⟨false, "network timed out"⟩) none "0.9.0/20160810"
      = Except.error (classify_pull_failure (image_identifier none "0.9.0/20160810")
          "network timed out") :=
  ⟨(pull_check_composes_and_classifies (fun _ => ⟨false, "network timed out"⟩)
      "0.9.0/20160810" rfl).1,
   (pull_check_composes_and_classifies (fun _ => ⟨false, "network timed out"⟩)
      "0.9.0/20160810" rfl).2.1⟩

end Studio
